import Mathlib

/-!
# hellotinyb: the polling client loop of `examples/hellotinyb.cpp`

A shallow embedding of `main` of `src/examples/hellotinyb.cpp`.

* The BLE provider (libtinyb) is an opaque collaborator.  Every handle it
  hands out is a record that carries, next to its attributes, the result its
  methods give when `main` calls them (each method is called at most once per
  handle and iteration).  `connect`, `read_value` and `disconnect` may throw
  and return `Except`; the manager initialisation returns `Except` as well.
* Console output and provider calls are recorded as a chronological list of
  `Event`s.
* A member call through a null pointer crashes the process; it is an
  explicit outcome.  A read past the end of the response buffer is recorded
  as an `access` event with an index that is not below the size, and gives the
  byte that lies after the buffer.
* `main` itself is a step function on a `State` made of the `running` flag,
  the device lists the coming `get_devices` calls return, and a program
  location.
* `main` installs no signal handler: `signal_handler` is defined and never
  passed to `signal()` or `sigaction()`.  A delivered `SIGINT` therefore has
  its default disposition and terminates the process.
-/

namespace Hellotinyb

/-! ## Provider handles -/

/-- A `BluetoothGattCharacteristic` handle: its UUID and what `read_value()`
gives (the bytes, each an `unsigned char`, or a thrown exception with its
`what()` text). -/
structure BluetoothGattCharacteristic where
  uuid : String
  read_value : Except String (List Nat)
  /-- The byte that lies right after the buffer of the vector `read_value()`
  returns; a read of `data[i]` with `i` not below the size finds it. -/
  stray : Nat

/-- A `BluetoothGattService` handle: its UUID and what
`get_characteristics()` returns. -/
structure BluetoothGattService where
  uuid : String
  characteristics : List BluetoothGattCharacteristic

/-- A `BluetoothDevice` handle: the attributes `main` reads, what `connect()`
and `disconnect()` give, and what `get_services()` returns. -/
structure BluetoothDevice where
  address : String
  name : String
  connected : Bool
  rssi : Int
  connect : Except String Unit
  services : List BluetoothGattService
  disconnect : Except String Unit

/-! ## Observable events -/

/-- The provider methods `main` calls on a device, service or characteristic
handle after discovery. -/
inductive Call
  | connect
  | get_name
  | get_address
  | get_connected
  | get_rssi
  | get_services
  | get_characteristics
  | read_value
  | disconnect
  deriving DecidableEq, Repr

/-- One observable action of `main`, in program order. -/
inductive Event
  /-- A provider call; `threw` tells whether it raised an exception. -/
  | call (c : Call) (threw : Bool)
  /-- A line written to `std::cout` / `std::cerr`. -/
  | out (line : String)
  /-- The line `Found device Name = .. Address = .. Connected = .. RSSI = ..`. -/
  | found (name address : String) (connected : Bool) (rssi : Int)
  /-- The line `Heart beat: v`. -/
  | heart_beat (v : Nat)
  /-- The call `std::this_thread::sleep_for(std::chrono::seconds(n))`. -/
  | sleep (seconds : Nat)
  /-- Control reaches the `try` block of the read step (line 206). -/
  | read_step
  /-- The access `data[index]` on a buffer of `size` bytes. -/
  | access (index size : Nat)
  deriving DecidableEq, Repr

/-- How a piece of straight-line code ends. -/
inductive Outcome
  /-- Control leaves the loop body normally (fall-through or `continue`). -/
  | next
  /-- The behaviour is undefined and the process crashes: a member call
  through `nullptr`. -/
  | undefined
  deriving DecidableEq, Repr

/-! ## Device matching (lines 84-116) -/

/-- The fallback device name compared at line 104. -/
def fallback_name : String := "Intech_BLE"

/-- The body of the `for` loop over the device list (lines 98-107).  `argv1`
is `argv[1]` when `argc >= 2` and `none` otherwise; `sensor_tag` is the
pointer assigned so far (`none` for `NULL`).  The loop has no `break`. -/
def scan_step (argv1 : Option String) (sensor_tag : Option BluetoothDevice)
    (it : BluetoothDevice) : Option BluetoothDevice :=
  match argv1 with
  | some addr => if it.address = addr then some it else sensor_tag
  | none => if it.name = fallback_name then some it else sensor_tag

/-- The `for` loop of lines 89-108 over one device list, started with
`sensor_tag == NULL`. -/
def scan_devices (argv1 : Option String) (list : List BluetoothDevice) :
    Option BluetoothDevice :=
  list.foldl (scan_step argv1) none

/-- The match predicate of the discovery step as the specification words
it: the address equals the argument when one was given (names are ignored),
the name equals the fallback name otherwise.  `scan_step_eq` relates it to
the tests of the loop body. -/
def is_target (argv1 : Option String) (d : BluetoothDevice) : Bool :=
  match argv1 with
  | some addr => decide (d.address = addr)
  | none => decide (d.name = fallback_name)

/-! ## Service and characteristic resolution (lines 149-196) -/

/-- The UUID compared at line 165. -/
def temperature_service_uuid : String := "77880001-b5a3-f393-e0a9-150e24fcca8e"

/-- The UUID compared at line 190. -/
def temp_value_uuid : String := "77880003-b5a3-f393-e0a9-150e24fcca8e"

/-- The UUID compared at line 192. -/
def temp_config_uuid : String := "77880002-b5a3-f393-e0a9-150e24fcca8e"

/-- The one-pass `while (true)` of lines 149-169: an empty list leaves
`temperature_service` null; otherwise every entry is visited and each entry
with the service UUID is assigned. -/
def find_service (list : List BluetoothGattService) : Option BluetoothGattService :=
  if list.isEmpty then none
  else list.foldl
    (fun temperature_service it =>
      if it.uuid = temperature_service_uuid then some it else temperature_service)
    none

/-- The body of the `for` loop of lines 182-196 on the pair
`(temp_value, temp_config)`. -/
def characteristic_step
    (acc : Option BluetoothGattCharacteristic × Option BluetoothGattCharacteristic)
    (it : BluetoothGattCharacteristic) :
    Option BluetoothGattCharacteristic × Option BluetoothGattCharacteristic :=
  if it.uuid = temp_value_uuid then (some it, acc.2)
  else if it.uuid = temp_config_uuid then (acc.1, some it)
  else acc

/-- The `for` loop of lines 182-196, started with both pointers null; the
result is `(temp_value, temp_config)`. -/
def find_characteristics (list : List BluetoothGattCharacteristic) :
    Option BluetoothGattCharacteristic × Option BluetoothGattCharacteristic :=
  list.foldl characteristic_step (none, none)

/-! ## The read step (lines 206-227) -/

/-- The value printed at line 220 from `b0 = data[0]` and `b1 = data[1]`:
`b0 + (b1 << 8)`.  Both operands are `int`s converted from `unsigned char`,
so the shift cannot overflow. -/
def heart_beat (b0 b1 : Nat) : Nat := b0 + (b1 <<< 8)

/-- The byte the expression `data[index]` reads: the byte of the buffer when
the index is below its size, and otherwise the byte that lies after the
buffer. -/
def data_at (response : List Nat) (stray : Nat) (index : Nat) : Nat :=
  response.getD index stray

/-- The code between `read_value()` returning `response` and the end of the
`try` block (lines 209-222).  `size` is `response.size()` (a GATT value has
at most 512 bytes, the conversion to `unsigned int` keeps it); the guard is
`size > 0`; `data[0]` and `data[1]` are read in this order, whatever the size,
and the line `Heart beat:` is printed from them. -/
def decode_response (response : List Nat) (stray : Nat) : List Event × Outcome :=
  let size := response.length
  if size > 0 then
    let b0 := data_at response stray 0
    let b1 := data_at response stray 1
    ([.out "", .access 0 size, .access 1 size, .heart_beat (heart_beat b0 b1), .out ""],
      .next)
  else ([], .next)

/-- The read step, lines 206-227: `temp_value->read_value()` inside a
`try` whose handler prints the error.  `temp_value` is `none` when the
pointer is still `nullptr`; the member call through it crashes. -/
def read_step (temp_value : Option BluetoothGattCharacteristic) :
    List Event × Outcome :=
  match temp_value with
  | none => ([.read_step], .undefined)
  | some c =>
    match c.read_value with
    | .error e => ([.read_step, .call .read_value true, .out ("Error: " ++ e)], .next)
    | .ok response =>
      let r := decode_response response c.stray
      (.read_step :: .call .read_value false :: r.1, r.2)

/-- The disconnect step, lines 230-236, with the cool-down sleep that follows
it. -/
def disconnect_step (sensor_tag : BluetoothDevice) : List Event :=
  match sensor_tag.disconnect with
  | .error e => [.call .disconnect true, .out ("Error: " ++ e), .sleep 2]
  | .ok _ => [.call .disconnect false, .sleep 2]

/-- The warning of lines 198-202, printed when one of the two pointers is
still null; there is no `continue` after it. -/
def characteristics_warning
    (tc : Option BluetoothGattCharacteristic × Option BluetoothGattCharacteristic) :
    List Event :=
  if tc.2.isNone || tc.1.isNone then [.out "Could not find characteristics.", .sleep 2]
  else []

/-- The calls and the line printed between a successful `connect()` and the
service scan (lines 135-153). -/
def connect_events (sensor_tag : BluetoothDevice) : List Event :=
  [.call .connect false, .call .get_name false, .call .get_address false,
   .call .get_connected false, .call .get_rssi false,
   .found sensor_tag.name sensor_tag.address sensor_tag.connected sensor_tag.rssi,
   .call .get_services false]

/-- The rest of the outer loop body once `sensor_tag` is set, lines 127-236:
connect, service resolution, characteristic resolution, read, disconnect. -/
def iteration_body (sensor_tag : BluetoothDevice) : List Event × Outcome :=
  match sensor_tag.connect with
  | .error e => ([.call .connect true, .out ("Error: " ++ e), .sleep 2], .next)
  | .ok _ =>
    match find_service sensor_tag.services with
    | none =>
      (connect_events sensor_tag ++
        [.out "Could not find service 77880001-b5a3-f393-e0a9-150e24fcca8e", .sleep 2], .next)
    | some temperature_service =>
      let tc := find_characteristics temperature_service.characteristics
      let resolved := connect_events sensor_tag ++
        (.call .get_characteristics false :: characteristics_warning tc)
      let r := read_step tc.1
      match r.2 with
      | .undefined => (resolved ++ r.1, .undefined)
      | .next => (resolved ++ r.1 ++ disconnect_step sensor_tag, .next)

/-! ## The program as a state machine (lines 59-240) -/

/-- Where `main` is. -/
inductive Loc
  /-- Before `get_bluetooth_manager()` (line 63). -/
  | start
  /-- At the test of `while (running)` (line 75). -/
  | outer
  /-- In the inner `while (true)`, before `get_devices()` (line 84). -/
  | discovery
  /-- After the inner loop, `sensor_tag` set (line 127). -/
  | found (sensor_tag : BluetoothDevice)
  /-- The process has terminated with this exit status. -/
  | exited (status : Nat)
  /-- The behaviour of the process is undefined. -/
  | undefined

/-- The state of the process. -/
structure State where
  /-- The global `std::atomic<bool> running`; cancellation is `false`. -/
  running : Bool
  /-- The device lists the coming `get_devices()` calls return. -/
  devices : List (List BluetoothDevice)
  loc : Loc
  trace : List Event

/-- What is fixed at startup: `argv[1]` when `argc >= 2`, and the result of
`BluetoothManager::get_bluetooth_manager()` (on success the manager, given by
what its `start_discovery()` returns). -/
structure Config where
  argv1 : Option String
  manager : Except String Bool

/-- The signal number of `SIGINT`. -/
def SIGINT : Nat := 2

/-- The `signal_handler` of lines 48-53.  `main` never installs it. -/
def signal_handler (signum : Nat) (s : State) : State :=
  if signum = SIGINT then { s with running := false } else s

/-- One step of `main`.  In the discovery loop with no device list left the
state is unchanged: the loop is polling and the result of the next
`get_devices()` is not given. -/
def step (cfg : Config) (s : State) : State :=
  match s.loc with
  | .start =>
    match cfg.manager with
    | .error e =>
      { s with loc := .exited 1,
               trace := s.trace ++ [.out "Intech BLE Sensor demo",
                 .out ("Error while initializing libtinyb: " ++ e)] }
    | .ok ret =>
      { s with loc := .outer,
               trace := s.trace ++ [.out "Intech BLE Sensor demo",
                 .out ("Started = " ++ (if ret then "true" else "false"))] }
  | .outer =>
    if s.running then
      { s with loc := .discovery,
               trace := s.trace ++ [.out "Discovering Intech BLE device .... "] }
    else { s with loc := .exited 0 }
  | .discovery =>
    match s.devices with
    | [] => s
    | list :: rest =>
      match scan_devices cfg.argv1 list with
      | some sensor_tag => { s with devices := rest, loc := .found sensor_tag }
      | none => { s with devices := rest, trace := s.trace ++ [.sleep 1] }
  | .found sensor_tag =>
    let r := iteration_body sensor_tag
    match r.2 with
    | .next => { s with loc := .outer, trace := s.trace ++ r.1 }
    | .undefined => { s with loc := .undefined, trace := s.trace ++ r.1 }
  | .exited _ => s
  | .undefined => s

/-- The state after `n` steps of `main`. -/
def run (cfg : Config) : Nat → State → State
  | 0, s => s
  | n + 1, s => run cfg n (step cfg s)

/-- The process as its environment sees it: executing `main` in some state,
or terminated by a signal. -/
inductive Process
  | alive (s : State)
  | killed (signum : Nat)

/-- The delivery of `SIGINT` to the process.  No handler is installed, so the
signal has its default disposition: a process that has not exited is
terminated by the signal; `running` is not written. -/
def interrupt : Process → Process
  | .alive s =>
    match s.loc with
    | .exited _ => .alive s
    | _ => .killed SIGINT
  | .killed signum => .killed signum

/-- The exit status of the process, when it has exited through `exit` or the
`return` of `main`. -/
def exit_status : Process → Option Nat
  | .alive s =>
    match s.loc with
    | .exited status => some status
    | _ => none
  | .killed _ => none

/-- The transitions of the process and its environment: a step of `main`, or
the delivery of `SIGINT`. -/
inductive Step (cfg : Config) : Process → Process → Prop
  | main (s : State) : Step cfg (.alive s) (.alive (step cfg s))
  | sigint (p : Process) : Step cfg p (interrupt p)

/-- Zero or more transitions. -/
inductive Steps (cfg : Config) : Process → Process → Prop
  | refl (p : Process) : Steps cfg p p
  | tail {p q r : Process} : Steps cfg p q → Step cfg q r → Steps cfg p r

/-! ## Observations on a trace -/

/-- The readings reported in a trace, in order. -/
def readings (t : List Event) : List Nat :=
  t.filterMap fun e => match e with
    | .heart_beat v => some v
    | _ => none

/-- The provider calls of a trace, in order. -/
def calls (t : List Event) : List Call :=
  t.filterMap fun e => match e with
    | .call c _ => some c
    | _ => none

/-- Whether a call only reads an attribute of the device. -/
def Call.is_getter : Call → Bool
  | .get_name | .get_address | .get_connected | .get_rssi => true
  | _ => false

/-- The number of `connect`, `read_value` and `disconnect` calls of a trace
that threw. -/
def failures (t : List Event) : Nat :=
  (t.filter fun e => match e with
    | .call .connect true | .call .read_value true | .call .disconnect true => true
    | _ => false).length

/-- The accesses `data[index]` of a trace that are past the end of the
buffer. -/
def out_of_range (t : List Event) : List Event :=
  t.filter fun e => match e with
    | .access index size => decide (size ≤ index)
    | _ => false

/-! ## Sample provider data -/

/-- A characteristic with the value UUID whose read returns `bytes`, with
the byte `0xA5` after the buffer. -/
def value_characteristic (bytes : List Nat) : BluetoothGattCharacteristic :=
  { uuid := temp_value_uuid, read_value := .ok bytes, stray := 0xA5 }

/-- A characteristic with the config UUID. -/
def config_characteristic : BluetoothGattCharacteristic :=
  { uuid := temp_config_uuid, read_value := .ok [], stray := 0 }

/-- A device named `Intech_BLE` with the given address and services, whose
`connect()` and `disconnect()` succeed. -/
def intech (address : String) (services : List BluetoothGattService) : BluetoothDevice :=
  { address := address, name := "Intech_BLE", connected := true, rssi := -60,
    connect := .ok (), services := services, disconnect := .ok () }

/-- A service with the temperature-service UUID. -/
def target_service (characteristics : List BluetoothGattCharacteristic) :
    BluetoothGattService :=
  { uuid := temperature_service_uuid, characteristics := characteristics }

/-- A service with another UUID (the Generic Access service). -/
def generic_access_service : BluetoothGattService :=
  { uuid := "00001800-0000-1000-8000-00805f9b34fb", characteristics := [] }

/-- A process state at the given location, with an empty trace. -/
def state_at (loc : Loc) (running : Bool) (devices : List (List BluetoothDevice)) : State :=
  { running := running, devices := devices, loc := loc, trace := [] }

/-- A configuration with the given `argv[1]` and a manager that initialises. -/
def config_with (argv1 : Option String) : Config :=
  { argv1 := argv1, manager := .ok true }

/-- A characteristic with the value UUID whose read throws. -/
def failing_value_characteristic : BluetoothGattCharacteristic :=
  { uuid := temp_value_uuid, read_value := .error "Timeout was reached", stray := 0 }

/-- A device named `Intech_BLE` whose `connect()` throws. -/
def unreachable_intech (address : String) : BluetoothDevice :=
  { intech address [] with connect := .error "le-connection-abort-by-local" }

/-- A device named `Intech_BLE` whose `disconnect()` throws. -/
def stuck_intech (address : String) (services : List BluetoothGattService) :
    BluetoothDevice :=
  { intech address services with disconnect := .error "Not connected" }

/-- A device with another name. -/
def other_device (address : String) : BluetoothDevice :=
  { address := address, name := "Thermometer", connected := false, rssi := -70,
    connect := .ok (), services := [], disconnect := .ok () }

end Hellotinyb

namespace Hellotinyb

/-! ## The read step: decoding -/

theorem readings_cons_heart_beat (v : Nat) (t : List Event) :
    readings (.heart_beat v :: t) = v :: readings t := rfl

theorem decode_response_cons_cons (b0 b1 : Nat) (rest : List Nat) (stray : Nat) :
    decode_response (b0 :: b1 :: rest) stray =
      ([.out "", .access 0 (rest.length + 2), .access 1 (rest.length + 2),
        .heart_beat (b0 + b1 * 256), .out ""], .next) := by
  simp [decode_response, data_at, heart_beat, Nat.shiftLeft_eq]

theorem read_step_ok (c : BluetoothGattCharacteristic) (bytes : List Nat)
    (h : c.read_value = .ok bytes) :
    read_step (some c) =
      (.read_step :: .call .read_value false :: (decode_response bytes c.stray).1,
        (decode_response bytes c.stray).2) := by
  simp [read_step, h]

/-- C1: when `read_value` returns a payload of at least two bytes, each in
0..255, the read step reports exactly one reading, `bytes[0] + bytes[1]*256`;
it lies in 0..65535; a payload with the same first two bytes gives the same
reading; and the payload `[0x10, 0x02]` gives 528. -/
theorem C1_reading_is_little_endian_u16 (c : BluetoothGattCharacteristic)
    (bytes : List Nat) (hread : c.read_value = .ok bytes)
    (hlen : 2 ≤ bytes.length) (hbyte : ∀ b ∈ bytes, b < 256) :
    readings (read_step (some c)).1 = [bytes[0] + bytes[1] * 256]
    ∧ (read_step (some c)).2 = .next
    ∧ bytes[0] + bytes[1] * 256 ≤ 65535
    ∧ (∀ (c2 : BluetoothGattCharacteristic) (bytes2 : List Nat),
        c2.read_value = .ok bytes2 → bytes2.take 2 = bytes.take 2 →
        readings (read_step (some c2)).1 = readings (read_step (some c)).1)
    ∧ readings (read_step (some (value_characteristic [0x10, 0x02]))).1 = [528] := by
  obtain ⟨b0, b1, rest, rfl⟩ : ∃ b0 b1 rest, bytes = b0 :: b1 :: rest := by
    match bytes, hlen with
    | b0 :: b1 :: rest, _ => exact ⟨b0, b1, rest, rfl⟩
  have h0 : b0 < 256 := hbyte b0 (by simp)
  have h1 : b1 < 256 := hbyte b1 (by simp)
  refine ⟨?_, ?_, ?_, ?_, ?_⟩
  · rw [read_step_ok c _ hread, decode_response_cons_cons]
    simp [readings]
  · rw [read_step_ok c _ hread, decode_response_cons_cons]
  · simp only [List.getElem_cons_zero, List.getElem_cons_succ]
    omega
  · intro c2 bytes2 h2 htake
    obtain ⟨rest2, rfl⟩ : ∃ rest2, bytes2 = b0 :: b1 :: rest2 := by
      match bytes2, htake with
      | [], h => simp at h
      | [_], h => simp at h
      | x :: y :: r, h =>
        simp at h
        exact ⟨r, by rw [h.1, h.2]⟩
    rw [read_step_ok c2 _ h2, read_step_ok c _ hread, decode_response_cons_cons,
      decode_response_cons_cons]
    simp [readings]
  · rw [read_step_ok _ [0x10, 0x02] rfl, decode_response_cons_cons]
    simp [readings]

/-- The scenario of C1: a characteristic whose read returns `[0x10, 0x02]`. -/
theorem C1_reading_is_little_endian_u16_witness :
    (value_characteristic [0x10, 0x02]).read_value = .ok [0x10, 0x02]
    ∧ readings (read_step (some (value_characteristic [0x10, 0x02]))).1 = [0x10 + 0x02 * 256]
    ∧ (read_step (some (value_characteristic [0x10, 0x02]))).2 = .next :=
  have h := C1_reading_is_little_endian_u16 (value_characteristic [0x10, 0x02]) [0x10, 0x02]
    rfl (by decide) (by decide)
  ⟨rfl, h.1, h.2.1⟩

theorem decode_response_singleton (b0 stray : Nat) :
    decode_response [b0] stray =
      ([.out "", .access 0 1, .access 1 1, .heart_beat (heart_beat b0 stray), .out ""],
       .next) := rfl

/-- C4: at a payload of one byte the guard `size > 0` passes and the read
step reads `data[1]` on a buffer of size 1, which is out of range, and reports
a reading built from the byte found after the buffer; only the empty payload
is skipped by the guard. -/
theorem C4_one_byte_payload_reads_out_of_range :
    read_step (some (value_characteristic [0x10])) =
      ([.read_step, .call .read_value false, .out "", .access 0 1, .access 1 1,
        .heart_beat (0x10 + 0xA5 * 256), .out ""], .next)
    ∧ out_of_range (read_step (some (value_characteristic [0x10]))).1 = [.access 1 1]
    ∧ readings (read_step (some (value_characteristic [0x10]))).1 = [0x10 + 0xA5 * 256]
    ∧ read_step (some (value_characteristic [])) =
      ([.read_step, .call .read_value false], .next) := by
  refine ⟨?_, ?_, ?_, ?_⟩
  · rfl
  · rfl
  · rfl
  · rfl

/-! ## Device matching -/

theorem scan_step_eq (argv1 : Option String) (sensor_tag : Option BluetoothDevice)
    (it : BluetoothDevice) :
    scan_step argv1 sensor_tag it = if is_target argv1 it then some it else sensor_tag := by
  cases argv1 <;> simp [scan_step, is_target]

theorem foldl_scan_step (argv1 : Option String) (list : List BluetoothDevice)
    (sensor_tag : Option BluetoothDevice) :
    list.foldl (scan_step argv1) sensor_tag =
      (list.reverse.find? (is_target argv1)).or sensor_tag := by
  induction list generalizing sensor_tag with
  | nil => simp
  | cons it rest ih =>
    rw [List.foldl_cons, ih, List.reverse_cons, List.find?_append, scan_step_eq]
    cases hrest : List.find? (is_target argv1) rest.reverse with
    | some d => simp
    | none => cases hit : is_target argv1 it <;> simp [hit]

theorem scan_devices_eq_none (argv1 : Option String) (list : List BluetoothDevice) :
    scan_devices argv1 list = none ↔ ∀ d ∈ list, is_target argv1 d = false := by
  simp [scan_devices, foldl_scan_step]

theorem scan_devices_eq_some (argv1 : Option String) (list : List BluetoothDevice)
    (d : BluetoothDevice) (h : scan_devices argv1 list = some d) :
    d ∈ list ∧ is_target argv1 d = true := by
  simp only [scan_devices, foldl_scan_step, Option.or_none] at h
  exact ⟨by simpa using List.mem_of_find?_eq_some h, List.find?_some h⟩

/-- C2, as stated, fails: with no argument and two devices named
`Intech_BLE`, the first entry in list order that matches is the one at
address `..:01`, and the loop selects the one at `..:02`. -/
theorem C2_first_match_refuted :
    is_target none (intech "00:00:00:00:00:01" []) = true
    ∧ is_target none (intech "00:00:00:00:00:02" []) = true
    ∧ [intech "00:00:00:00:00:01" [], intech "00:00:00:00:00:02" []].find? (is_target none)
        = some (intech "00:00:00:00:00:01" [])
    ∧ scan_devices none [intech "00:00:00:00:00:01" [], intech "00:00:00:00:00:02" []]
        = some (intech "00:00:00:00:00:02" [])
    ∧ scan_devices none [intech "00:00:00:00:00:01" [], intech "00:00:00:00:00:02" []]
        ≠ [intech "00:00:00:00:00:01" [], intech "00:00:00:00:00:02" []].find? (is_target none) := by
  refine ⟨rfl, rfl, rfl, rfl, ?_⟩
  intro h
  have h2 := congrArg (fun o => o.map BluetoothDevice.address) h
  simp [scan_devices, scan_step, is_target, intech, fallback_name] at h2

/-- C2, amended: for every device list of one poll (empty, one entry or
several), the device the matching loop selects is the last entry in list order
that satisfies the match predicate (the address equals the argument when one
was given, the name equals `Intech_BLE` otherwise): no device is selected
when no entry satisfies it, and an entry that satisfies it and is followed by
no other such entry is the one selected. -/
theorem C2_last_match_selected (argv1 : Option String) (list : List BluetoothDevice) :
    scan_devices argv1 list = list.reverse.find? (is_target argv1)
    ∧ ((∀ d ∈ list, is_target argv1 d = false) → scan_devices argv1 list = none)
    ∧ ∀ (before after : List BluetoothDevice) (d : BluetoothDevice),
        list = before ++ d :: after → is_target argv1 d = true →
        (∀ x ∈ after, is_target argv1 x = false) → scan_devices argv1 list = some d := by
  have hlast : scan_devices argv1 list = list.reverse.find? (is_target argv1) := by
    simp [scan_devices, foldl_scan_step]
  refine ⟨hlast, (scan_devices_eq_none argv1 list).2, ?_⟩
  intro before after d hlist hd hafter
  have hnone : List.find? (is_target argv1) after.reverse = none := by
    rw [List.find?_eq_none]
    intro x hx
    simp [hafter x (by simpa using hx)]
  rw [hlast, hlist, List.reverse_append, List.reverse_cons, List.append_assoc,
    List.find?_append, hnone]
  simp [List.find?_cons, hd]

/-- Two runs of C2 with no argument: of two devices named `Intech_BLE` the
second is selected, also when a device with another name follows it. -/
theorem C2_last_match_selected_witness :
    scan_devices none
        [intech "00:00:00:00:00:01" [], intech "00:00:00:00:00:02" [],
         other_device "11:22:33:44:55:66"]
      = some (intech "00:00:00:00:00:02" [])
    ∧ scan_devices none [other_device "11:22:33:44:55:66"] = none :=
  ⟨(C2_last_match_selected none
      [intech "00:00:00:00:00:01" [], intech "00:00:00:00:00:02" [],
       other_device "11:22:33:44:55:66"]).2.2
      [intech "00:00:00:00:00:01" []] [other_device "11:22:33:44:55:66"]
      (intech "00:00:00:00:00:02" []) rfl rfl
      (by simp [is_target, other_device, fallback_name]),
   (C2_last_match_selected none [other_device "11:22:33:44:55:66"]).2.1
      (by simp [is_target, other_device, fallback_name])⟩

/-! ## The discovery loop -/

theorem step_discovery_nil (cfg : Config) (s : State) (hloc : s.loc = .discovery)
    (hdev : s.devices = []) : step cfg s = s := by
  simp [step, hloc, hdev]

theorem step_discovery_no_match (cfg : Config) (s : State) (list : List BluetoothDevice)
    (rest : List (List BluetoothDevice)) (hloc : s.loc = .discovery)
    (hdev : s.devices = list :: rest) (hnone : scan_devices cfg.argv1 list = none) :
    step cfg s = { s with devices := rest, trace := s.trace ++ [.sleep 1] } := by
  simp [step, hloc, hdev, hnone]

theorem step_discovery_match (cfg : Config) (s : State) (list : List BluetoothDevice)
    (rest : List (List BluetoothDevice)) (d : BluetoothDevice) (hloc : s.loc = .discovery)
    (hdev : s.devices = list :: rest) (hsome : scan_devices cfg.argv1 list = some d) :
    step cfg s = { s with devices := rest, loc := .found d } := by
  simp [step, hloc, hdev, hsome]

theorem step_found (cfg : Config) (s : State) (d : BluetoothDevice)
    (hloc : s.loc = .found d) :
    (step cfg s).trace = s.trace ++ (iteration_body d).1
    ∧ (step cfg s).running = s.running
    ∧ ((iteration_body d).2 = .next → (step cfg s).loc = .outer)
    ∧ ((iteration_body d).2 = .undefined → (step cfg s).loc = .undefined) := by
  simp only [step, hloc]
  cases h : (iteration_body d).2 <;> simp

theorem iteration_body_starts_with_connect (d : BluetoothDevice) :
    ∃ t, (iteration_body d).1 = .call .connect (!d.connect.toBool) :: t := by
  unfold iteration_body
  cases hc : d.connect with
  | error e => exact ⟨_, rfl⟩
  | ok u =>
    simp only []
    cases hs : find_service d.services with
    | none => exact ⟨_, rfl⟩
    | some svc =>
      simp only []
      cases hr : (read_step (find_characteristics svc.characteristics).1).2 with
      | next => exact ⟨_, rfl⟩
      | undefined => exact ⟨_, rfl⟩

/-- C9: from the entry of the discovery loop, if the list returned by poll
`k + 1` holds an entry that satisfies the match predicate and the lists of the
first `k` polls hold none, then the loop is still polling after each of the
first `k` polls, it is left at poll `k + 1` with a device of that list that
satisfies the predicate, and the next provider call is `connect` on that
device. -/
theorem C9_discovery_returns_at_first_match (cfg : Config) (s : State) (k : Nat)
    (list : List BluetoothDevice) (hloc : s.loc = .discovery)
    (hk : s.devices[k]? = some list)
    (hmatch : ∃ d ∈ list, is_target cfg.argv1 d = true)
    (hearlier : ∀ l ∈ s.devices.take k, ∀ d ∈ l, is_target cfg.argv1 d = false) :
    (∀ j ≤ k, (run cfg j s).loc = .discovery)
    ∧ ∃ d, (run cfg (k + 1) s).loc = .found d
        ∧ d ∈ list ∧ is_target cfg.argv1 d = true
        ∧ (run cfg (k + 1) s).devices = s.devices.drop (k + 1)
        ∧ ∃ t, (run cfg (k + 2) s).trace =
            (run cfg (k + 1) s).trace ++ .call .connect (!d.connect.toBool) :: t := by
  induction k generalizing s with
  | zero =>
    obtain ⟨rest, hdev⟩ : ∃ rest, s.devices = list :: rest := by
      cases hd : s.devices with
      | nil => simp [hd] at hk
      | cons l rest => simp [hd] at hk; exact ⟨rest, by rw [hk]⟩
    obtain ⟨d, hd⟩ : ∃ d, scan_devices cfg.argv1 list = some d := by
      cases hscan : scan_devices cfg.argv1 list with
      | some d => exact ⟨d, rfl⟩
      | none =>
        obtain ⟨d, hmem, ht⟩ := hmatch
        have := (scan_devices_eq_none cfg.argv1 list).1 hscan d hmem
        simp [this] at ht
    have hstep := step_discovery_match cfg s list rest d hloc hdev hd
    refine ⟨?_, d, ?_, (scan_devices_eq_some _ _ _ hd).1, (scan_devices_eq_some _ _ _ hd).2,
      ?_, ?_⟩
    · intro j hj
      have : j = 0 := by omega
      subst this
      simpa [run] using hloc
    · simp [run, hstep]
    · simp [run, hstep, hdev]
    · obtain ⟨t, ht⟩ := iteration_body_starts_with_connect d
      refine ⟨t, ?_⟩
      have hf := (step_found cfg (step cfg s) d (by simp [hstep])).1
      simp only [run]
      rw [hf, ht]
  | succ k ih =>
    obtain ⟨l, rest, hdev⟩ : ∃ l rest, s.devices = l :: rest := by
      cases hd : s.devices with
      | nil => simp [hd] at hk
      | cons l rest => exact ⟨l, rest, rfl⟩
    have hl : scan_devices cfg.argv1 l = none := by
      rw [scan_devices_eq_none]
      exact hearlier l (by simp [hdev])
    have hstep := step_discovery_no_match cfg s l rest hloc hdev hl
    have hk2 : (step cfg s).devices[k]? = some list := by
      simpa [hstep, hdev] using hk
    have he2 : ∀ l2 ∈ (step cfg s).devices.take k, ∀ d ∈ l2,
        is_target cfg.argv1 d = false := by
      intro l2 hl2
      apply hearlier l2
      simp only [hstep] at hl2
      simp [hdev, hl2]
    obtain ⟨h1, d, h2, h3, h4, h5, h6⟩ := ih (step cfg s) (by simp [hstep, hloc]) hk2 he2
    refine ⟨?_, d, ?_, h3, h4, ?_, ?_⟩
    · intro j hj
      cases j with
      | zero => simpa [run] using hloc
      | succ j => simpa [run] using h1 j (by omega)
    · simpa [run] using h2
    · show (run cfg (k + 1) (step cfg s)).devices = _
      rw [h5, hstep, hdev]
      simp
    · simpa [run] using h6

/-- The scenario of C9: the address `AA:BB:CC:DD:EE:FF` is absent from the
lists of polls 1 and 2 and present in the list of poll 3. -/
theorem C9_discovery_returns_at_first_match_witness :
    (∀ j ≤ 2, (run (config_with (some "AA:BB:CC:DD:EE:FF")) j
        (state_at .discovery true
          [[other_device "11:22:33:44:55:66"], [],
           [other_device "11:22:33:44:55:66", intech "AA:BB:CC:DD:EE:FF" []]])).loc
        = .discovery)
    ∧ ∃ d, (run (config_with (some "AA:BB:CC:DD:EE:FF")) 3
        (state_at .discovery true
          [[other_device "11:22:33:44:55:66"], [],
           [other_device "11:22:33:44:55:66", intech "AA:BB:CC:DD:EE:FF" []]])).loc
        = .found d
      ∧ d ∈ [other_device "11:22:33:44:55:66", intech "AA:BB:CC:DD:EE:FF" []]
      ∧ is_target (some "AA:BB:CC:DD:EE:FF") d = true
      ∧ (run (config_with (some "AA:BB:CC:DD:EE:FF")) 3
        (state_at .discovery true
          [[other_device "11:22:33:44:55:66"], [],
           [other_device "11:22:33:44:55:66", intech "AA:BB:CC:DD:EE:FF" []]])).devices
        = []
      ∧ ∃ t, (run (config_with (some "AA:BB:CC:DD:EE:FF")) 4
        (state_at .discovery true
          [[other_device "11:22:33:44:55:66"], [],
           [other_device "11:22:33:44:55:66", intech "AA:BB:CC:DD:EE:FF" []]])).trace
        = (run (config_with (some "AA:BB:CC:DD:EE:FF")) 3
        (state_at .discovery true
          [[other_device "11:22:33:44:55:66"], [],
           [other_device "11:22:33:44:55:66", intech "AA:BB:CC:DD:EE:FF" []]])).trace
          ++ .call .connect (!d.connect.toBool) :: t :=
  C9_discovery_returns_at_first_match (config_with (some "AA:BB:CC:DD:EE:FF"))
    (state_at .discovery true
      [[other_device "11:22:33:44:55:66"], [],
       [other_device "11:22:33:44:55:66", intech "AA:BB:CC:DD:EE:FF" []]])
    2 [other_device "11:22:33:44:55:66", intech "AA:BB:CC:DD:EE:FF" []] rfl rfl
    ⟨intech "AA:BB:CC:DD:EE:FF" [], by simp, rfl⟩
    (by simp [state_at, config_with, is_target, other_device])

/-! ## Cancellation -/

theorem step_running (cfg : Config) (s : State) : (step cfg s).running = s.running := by
  cases hs : s.loc with
  | start => cases hm : cfg.manager <;> simp [step, hs, hm]
  | outer => cases hr : s.running <;> simp [step, hs, hr]
  | discovery =>
    cases hd : s.devices with
    | nil => simp [step, hs, hd]
    | cons list rest =>
      cases hscan : scan_devices cfg.argv1 list <;> simp [step, hs, hd, hscan]
  | found sensor_tag =>
    cases hb : (iteration_body sensor_tag).2 <;> simp [step, hs, hb]
  | exited status => simp [step, hs]
  | undefined => simp [step, hs]

theorem run_running (cfg : Config) (n : Nat) (s : State) :
    (run cfg n s).running = s.running := by
  induction n generalizing s with
  | zero => rfl
  | succ n ih => rw [run, ih, step_running]

theorem step_exits_zero (cfg : Config) (s : State) :
    (step cfg s).loc = .exited 0 ↔
      (s.loc = .exited 0 ∨ (s.loc = .outer ∧ s.running = false)) := by
  cases hs : s.loc with
  | start => cases hm : cfg.manager <;> simp [step, hs, hm]
  | outer => cases hr : s.running <;> simp [step, hs, hr]
  | discovery =>
    cases hd : s.devices with
    | nil => simp [step, hs, hd]
    | cons list rest =>
      cases hscan : scan_devices cfg.argv1 list <;> simp [step, hs, hd, hscan]
  | found sensor_tag =>
    cases hb : (iteration_body sensor_tag).2 <;> simp [step, hs, hb]
  | exited status => simp [step, hs]
  | undefined => simp [step, hs]

theorem interrupt_alive (s : State) :
    interrupt (.alive s) =
      match s.loc with
      | .exited _ => .alive s
      | _ => .killed SIGINT := rfl

theorem step_keeps_running (cfg : Config) (p q : Process) (hstep : Step cfg p q)
    (hp : ∀ s, p = .alive s → s.running = true ∧ s.loc ≠ .exited 0) :
    ∀ t, q = .alive t → t.running = true ∧ t.loc ≠ .exited 0 := by
  cases hstep with
  | main u =>
    intro t ht
    obtain ⟨hr, hl⟩ := hp u rfl
    cases ht
    refine ⟨by rw [step_running, hr], ?_⟩
    intro hex
    rcases (step_exits_zero cfg u).1 hex with h | ⟨_, h⟩
    · exact hl h
    · rw [hr] at h; exact absurd h (by decide)
  | sigint =>
    intro t ht
    cases p with
    | killed signum => simp [interrupt] at ht
    | alive u =>
      have hu := hp u rfl
      rw [interrupt_alive] at ht
      split at ht
      · injection ht with ht
        subst ht
        exact hu
      · simp at ht

/-- A process whose flag `running` is `true` never exits with status 0,
whatever steps of `main` and deliveries of `SIGINT` happen: the flag is written
by `signal_handler` only, which nothing calls. -/
theorem never_exits_with_status_zero (cfg : Config) (p q : Process)
    (hsteps : Steps cfg p q)
    (hp : ∀ s, p = .alive s → s.running = true ∧ s.loc ≠ .exited 0) :
    ∀ t, q = .alive t → t.running = true ∧ t.loc ≠ .exited 0 := by
  induction hsteps with
  | refl => exact hp
  | tail _ hstep ih => exact step_keeps_running cfg _ _ hstep ih

theorem step_discovery_no_match_stays (cfg : Config) (p q : Process)
    (hstep : Step cfg p q)
    (hp : p = .killed SIGINT ∨ ∃ s, p = .alive s ∧ s.loc = .discovery
      ∧ ∀ list ∈ s.devices, scan_devices cfg.argv1 list = none) :
    q = .killed SIGINT ∨ ∃ t, q = .alive t ∧ t.loc = .discovery
      ∧ ∀ list ∈ t.devices, scan_devices cfg.argv1 list = none := by
  cases hstep with
  | main u =>
    rcases hp with h | ⟨t, ht, hl, hn⟩
    · simp at h
    · cases ht
      refine Or.inr ⟨_, rfl, ?_⟩
      cases hd : u.devices with
      | nil => rw [step_discovery_nil cfg u hl hd]; exact ⟨hl, hn⟩
      | cons list rest =>
        rw [step_discovery_no_match cfg u list rest hl hd (hn list (by simp [hd]))]
        exact ⟨hl, fun l hmem => hn l (by simp [hd, hmem])⟩
  | sigint =>
    rcases hp with h | ⟨t, ht, hl, hn⟩
    · subst h; exact Or.inl rfl
    · subst ht
      exact Or.inl (by simp [interrupt, hl])

/-- In the discovery loop with no match in the device lists to come, every
process state reached by steps of `main` and deliveries of `SIGINT` is either
still in the loop or terminated by the signal. -/
theorem steps_discovery_no_match (cfg : Config) (p q : Process) (hsteps : Steps cfg p q)
    (hp : ∃ s, p = .alive s ∧ s.loc = .discovery
      ∧ ∀ list ∈ s.devices, scan_devices cfg.argv1 list = none) :
    q = .killed SIGINT ∨ ∃ t, q = .alive t ∧ t.loc = .discovery
      ∧ ∀ list ∈ t.devices, scan_devices cfg.argv1 list = none := by
  induction hsteps with
  | refl => exact Or.inr hp
  | tail _ hstep ih => exact step_discovery_no_match_stays cfg _ _ hstep ih

/-- The discovery step does not read `running`: the location after the step
is the same whatever the value of the flag. -/
theorem step_discovery_ignores_running (cfg : Config) (s : State) (flag : Bool)
    (hloc : s.loc = .discovery) :
    (step cfg { s with running := flag }).loc = (step cfg s).loc := by
  cases hd : s.devices with
  | nil => simp [step, hloc, hd]
  | cons list rest =>
    cases hscan : scan_devices cfg.argv1 list <;> simp [step, hloc, hd, hscan]

/-- C3: the process is started with no argument and the polled device lists
hold no device named `Intech_BLE`.  It enters the discovery loop with
`running` still `true`; each poll leaves it in the loop; a `SIGINT` delivered
during the loop does not reach `signal_handler` (nothing installs it) and
terminates the process by the signal, so there is no exit status 0; and
without the signal the loop goes on polling. -/
theorem C3_sigint_in_discovery_is_not_a_clean_exit :
    (run (config_with none) 2
        (state_at .start true [[], [other_device "11:22:33:44:55:66"], []])).loc = .discovery
    ∧ (run (config_with none) 3
        (state_at .start true [[], [other_device "11:22:33:44:55:66"], []])).loc = .discovery
    ∧ (run (config_with none) 3
        (state_at .start true [[], [other_device "11:22:33:44:55:66"], []])).running = true
    ∧ interrupt (.alive (run (config_with none) 3
        (state_at .start true [[], [other_device "11:22:33:44:55:66"], []])))
        = .killed SIGINT
    ∧ exit_status (interrupt (.alive (run (config_with none) 3
        (state_at .start true [[], [other_device "11:22:33:44:55:66"], []])))) = none
    ∧ (run (config_with none) 5
        (state_at .start true [[], [other_device "11:22:33:44:55:66"], []])).loc = .discovery
    ∧ (run (config_with none) 5
        (state_at .start true [[], [other_device "11:22:33:44:55:66"], []])).running
        = true := by
  refine ⟨rfl, rfl, rfl, rfl, rfl, rfl, rfl⟩

/-! ## Service resolution -/

theorem foldl_service_no_match (list : List BluetoothGattService)
    (acc : Option BluetoothGattService)
    (h : ∀ svc ∈ list, svc.uuid ≠ temperature_service_uuid) :
    list.foldl
      (fun temperature_service it =>
        if it.uuid = temperature_service_uuid then some it else temperature_service) acc
      = acc := by
  induction list generalizing acc with
  | nil => rfl
  | cons it rest ih =>
    rw [List.foldl_cons, if_neg (h it (by simp))]
    exact ih acc (fun svc hmem => h svc (by simp [hmem]))

theorem find_service_eq_none (list : List BluetoothGattService)
    (h : ∀ svc ∈ list, svc.uuid ≠ temperature_service_uuid) : find_service list = none := by
  unfold find_service
  split
  · rfl
  · exact foldl_service_no_match list none h

theorem iteration_body_service_not_found (d : BluetoothDevice) (hconn : d.connect = .ok ())
    (hsvc : ∀ svc ∈ d.services, svc.uuid ≠ temperature_service_uuid) :
    iteration_body d =
      (connect_events d ++
        [.out "Could not find service 77880001-b5a3-f393-e0a9-150e24fcca8e", .sleep 2],
       .next) := by
  simp [iteration_body, hconn, find_service_eq_none d.services hsvc]

/-- C5: after a successful connect, when no entry of the service list (empty
or not) has the temperature-service UUID, the iteration prints that the
service was not found, sleeps 2 seconds and control is back at the test of the
outer loop; the calls of the iteration are `connect`, the four attribute
getters and `get_services`, so neither `get_characteristics` nor `read_value`
is called. -/
theorem C5_service_not_found_restarts (cfg : Config) (s : State) (d : BluetoothDevice)
    (hloc : s.loc = .found d) (hconn : d.connect = .ok ())
    (hsvc : ∀ svc ∈ d.services, svc.uuid ≠ temperature_service_uuid) :
    (step cfg s).trace = s.trace ++ (connect_events d ++
        [.out "Could not find service 77880001-b5a3-f393-e0a9-150e24fcca8e", .sleep 2])
    ∧ (step cfg s).loc = .outer
    ∧ calls (iteration_body d).1 =
        [.connect, .get_name, .get_address, .get_connected, .get_rssi, .get_services]
    ∧ Call.get_characteristics ∉ calls (iteration_body d).1
    ∧ Call.read_value ∉ calls (iteration_body d).1 := by
  have hbody := iteration_body_service_not_found d hconn hsvc
  have hstep := step_found cfg s d hloc
  have hcalls : calls (iteration_body d).1 =
      [.connect, .get_name, .get_address, .get_connected, .get_rssi, .get_services] := by
    rw [hbody]; rfl
  refine ⟨?_, ?_, hcalls, ?_, ?_⟩
  · rw [hstep.1, hbody]
  · exact hstep.2.2.1 (by rw [hbody])
  · rw [hcalls]; decide
  · rw [hcalls]; decide

/-- A run of C5: the connected device exposes only the Generic Access
service. -/
theorem C5_service_not_found_restarts_witness :
    (intech "AA:BB:CC:DD:EE:FF" [generic_access_service]).connect = .ok ()
    ∧ (step (config_with none)
        (state_at (.found (intech "AA:BB:CC:DD:EE:FF" [generic_access_service])) true [])).loc
        = .outer
    ∧ Call.get_characteristics ∉
        calls (iteration_body (intech "AA:BB:CC:DD:EE:FF" [generic_access_service])).1
    ∧ Call.read_value ∉
        calls (iteration_body (intech "AA:BB:CC:DD:EE:FF" [generic_access_service])).1 :=
  have h := C5_service_not_found_restarts (config_with none)
    (state_at (.found (intech "AA:BB:CC:DD:EE:FF" [generic_access_service])) true [])
    (intech "AA:BB:CC:DD:EE:FF" [generic_access_service]) rfl rfl
    (by simp [intech, generic_access_service, temperature_service_uuid])
  ⟨rfl, h.2.1, h.2.2.2.1, h.2.2.2.2⟩

/-! ## Failures of connect, read and disconnect -/

theorem failures_append (a b : List Event) :
    failures (a ++ b) = failures a + failures b := by
  simp [failures, List.filter_append]

theorem failures_resolved (d : BluetoothDevice)
    (tc : Option BluetoothGattCharacteristic × Option BluetoothGattCharacteristic) :
    failures (connect_events d ++
      (.call .get_characteristics false :: characteristics_warning tc)) = 0 := by
  rw [failures_append]
  unfold characteristics_warning
  split <;> rfl

theorem failures_decode_response (response : List Nat) (stray : Nat) :
    failures (decode_response response stray).1 = 0 := by
  unfold decode_response
  simp only []
  split <;> rfl

theorem failures_read_step_undefined (temp_value : Option BluetoothGattCharacteristic)
    (h : (read_step temp_value).2 = .undefined) : failures (read_step temp_value).1 = 0 := by
  cases temp_value with
  | none => rfl
  | some c =>
    cases hc : c.read_value with
    | error e => simp [read_step, hc] at h
    | ok response =>
      rw [read_step_ok c response hc]
      exact failures_decode_response response c.stray

theorem single_failure_next (d : BluetoothDevice) :
    failures (iteration_body d).1 = 1 → (iteration_body d).2 = .next := by
  unfold iteration_body
  cases hc : d.connect with
  | error e => intro _; rfl
  | ok u =>
    simp only []
    cases hs : find_service d.services with
    | none => intro _; rfl
    | some svc =>
      simp only []
      cases hr : (read_step (find_characteristics svc.characteristics).1).2 with
      | next => intro _; rfl
      | undefined =>
        simp only []
        rw [failures_append, failures_resolved, failures_read_step_undefined _ hr]
        intro h
        exact absurd h (by decide)

theorem step_outer_running (cfg : Config) (u : State) (hloc : u.loc = .outer)
    (hrun : u.running = true) : (step cfg u).loc = .discovery := by
  simp [step, hloc, hrun]

theorem step_outer_cancelled (cfg : Config) (u : State) (hloc : u.loc = .outer)
    (hrun : u.running = false) : (step cfg u).loc = .exited 0 := by
  simp [step, hloc, hrun]

/-- C7: when exactly one of the `connect`, `read_value` and `disconnect`
calls of an iteration throws, the iteration ends with control back at the
test of the outer loop (the process neither exits nor runs into undefined
behaviour), the flag is unchanged, and with the flag not set the next step
enters device discovery again.  A step of `main` makes the process exit with
status 1 only at startup, when the manager initialisation fails. -/
theorem C7_single_failure_is_not_fatal (cfg : Config) (s : State) (d : BluetoothDevice)
    (hloc : s.loc = .found d) (hfail : failures (iteration_body d).1 = 1) :
    (step cfg s).loc = .outer
    ∧ (step cfg s).running = s.running
    ∧ (s.running = true → (step cfg (step cfg s)).loc = .discovery)
    ∧ ∀ u : State, (step cfg u).loc = .exited 1 ↔
        (u.loc = .exited 1 ∨ (u.loc = .start ∧ ∃ e, cfg.manager = .error e)) := by
  have hstep := step_found cfg s d hloc
  have houter : (step cfg s).loc = .outer := hstep.2.2.1 (single_failure_next d hfail)
  refine ⟨houter, hstep.2.1, ?_, ?_⟩
  · intro hrun
    exact step_outer_running cfg (step cfg s) houter (by rw [hstep.2.1, hrun])
  · intro u
    cases hu : u.loc with
    | start =>
      cases hm : cfg.manager with
      | error e => simp [step, hu, hm]
      | ok ret => simp [step, hu, hm]
    | outer =>
      cases hr : u.running <;> simp [step, hu, hr]
    | discovery =>
      cases hd : u.devices with
      | nil => simp [step, hu, hd]
      | cons list rest =>
        cases hscan : scan_devices cfg.argv1 list <;> simp [step, hu, hd, hscan]
    | found sensor_tag =>
      cases hb : (iteration_body sensor_tag).2 <;> simp [step, hu, hb]
    | exited status => simp [step, hu]
    | undefined => simp [step, hu]

/-- Three runs of C7: `connect` throws; `read_value` throws; `disconnect`
throws.  Each time control is back at the test of the outer loop, from where
the next step enters device discovery.  At startup a failed manager
initialisation exits with status 1. -/
theorem C7_single_failure_is_not_fatal_witness :
    (failures (iteration_body (unreachable_intech "AA:BB:CC:DD:EE:FF")).1 = 1
      ∧ (step (config_with none)
          (state_at (.found (unreachable_intech "AA:BB:CC:DD:EE:FF")) true [])).loc = .outer
      ∧ (step (config_with none) (step (config_with none)
          (state_at (.found (unreachable_intech "AA:BB:CC:DD:EE:FF")) true []))).loc
          = .discovery)
    ∧ (failures (iteration_body (intech "AA:BB:CC:DD:EE:FF"
          [target_service [failing_value_characteristic, config_characteristic]])).1 = 1
      ∧ (step (config_with none)
          (state_at (.found (intech "AA:BB:CC:DD:EE:FF"
            [target_service [failing_value_characteristic, config_characteristic]]))
            true [])).loc = .outer)
    ∧ (failures (iteration_body (stuck_intech "AA:BB:CC:DD:EE:FF"
          [target_service [value_characteristic [0x10, 0x02], config_characteristic]])).1
          = 1
      ∧ (step (config_with none)
          (state_at (.found (stuck_intech "AA:BB:CC:DD:EE:FF"
            [target_service [value_characteristic [0x10, 0x02], config_characteristic]]))
            true [])).loc = .outer)
    ∧ ((step { argv1 := none, manager := .error "No adapter" }
          (state_at .start true [])).loc = .exited 1
      ∧ (step (config_with none) (state_at .start true [])).loc = .outer) :=
  have h1 := C7_single_failure_is_not_fatal (config_with none)
    (state_at (.found (unreachable_intech "AA:BB:CC:DD:EE:FF")) true [])
    (unreachable_intech "AA:BB:CC:DD:EE:FF") rfl rfl
  have h2 := C7_single_failure_is_not_fatal (config_with none)
    (state_at (.found (intech "AA:BB:CC:DD:EE:FF"
      [target_service [failing_value_characteristic, config_characteristic]])) true [])
    (intech "AA:BB:CC:DD:EE:FF"
      [target_service [failing_value_characteristic, config_characteristic]]) rfl rfl
  have h3 := C7_single_failure_is_not_fatal (config_with none)
    (state_at (.found (stuck_intech "AA:BB:CC:DD:EE:FF"
      [target_service [value_characteristic [0x10, 0x02], config_characteristic]]))
      true [])
    (stuck_intech "AA:BB:CC:DD:EE:FF"
      [target_service [value_characteristic [0x10, 0x02], config_characteristic]]) rfl rfl
  ⟨⟨rfl, h1.1, h1.2.2.1 rfl⟩, ⟨rfl, h2.1⟩, ⟨rfl, h3.1⟩, ⟨rfl, rfl⟩⟩

/-! ## Characteristic resolution, read and disconnect -/

theorem foldl_characteristic_step_value_absent (list : List BluetoothGattCharacteristic)
    (acc : Option BluetoothGattCharacteristic × Option BluetoothGattCharacteristic)
    (h : ∀ c ∈ list, c.uuid ≠ temp_value_uuid) :
    (list.foldl characteristic_step acc).1 = acc.1 := by
  induction list generalizing acc with
  | nil => rfl
  | cons it rest ih =>
    rw [List.foldl_cons, ih _ (fun c hmem => h c (by simp [hmem]))]
    unfold characteristic_step
    rw [if_neg (h it (by simp))]
    split <;> rfl

theorem calls_append (a b : List Event) : calls (a ++ b) = calls a ++ calls b := by
  simp [calls, List.filterMap_append]

theorem calls_resolved (d : BluetoothDevice)
    (tc : Option BluetoothGattCharacteristic × Option BluetoothGattCharacteristic) :
    calls (connect_events d ++
      (.call .get_characteristics false :: characteristics_warning tc)) =
      [.connect, .get_name, .get_address, .get_connected, .get_rssi, .get_services,
       .get_characteristics] := by
  rw [calls_append]
  unfold characteristics_warning
  split <;> rfl

/-- With the value UUID absent from the characteristics of the matched
service, `temp_value` is null at the read step: the iteration runs into
undefined behaviour and never calls `disconnect`. -/
theorem value_characteristic_absent_undefined (d : BluetoothDevice)
    (svc : BluetoothGattService) (hconn : d.connect = .ok ())
    (hsvc : find_service d.services = some svc)
    (hval : ∀ c ∈ svc.characteristics, c.uuid ≠ temp_value_uuid) :
    (iteration_body d).2 = .undefined
    ∧ Event.read_step ∈ (iteration_body d).1
    ∧ Call.disconnect ∉ calls (iteration_body d).1 := by
  have hnull : (find_characteristics svc.characteristics).1 = none :=
    foldl_characteristic_step_value_absent svc.characteristics (none, none) hval
  have hbody : iteration_body d =
      (connect_events d ++ (.call .get_characteristics false ::
        characteristics_warning (find_characteristics svc.characteristics)) ++ [.read_step],
       .undefined) := by
    simp [iteration_body, hconn, hsvc, hnull, read_step]
  rw [hbody]
  refine ⟨rfl, by simp, ?_⟩
  rw [calls_append, calls_resolved]
  decide

/-- Without a service with the temperature-service UUID, the calls on the
connected device other than attribute getters are `connect` and
`get_services`. -/
theorem service_not_found_device_calls (d : BluetoothDevice) (hconn : d.connect = .ok ())
    (hsvc : ∀ svc ∈ d.services, svc.uuid ≠ temperature_service_uuid) :
    (calls (iteration_body d).1).filter (fun c => !c.is_getter) = [.connect, .get_services]
    ∧ Call.disconnect ∉ calls (iteration_body d).1
    ∧ (iteration_body d).2 = .next := by
  rw [iteration_body_service_not_found d hconn hsvc]
  exact ⟨rfl, by simp [calls, connect_events], rfl⟩

/-- The `disconnect` call happens only in iterations that reach the read
step. -/
theorem disconnect_only_after_read_step (d : BluetoothDevice)
    (h : Call.disconnect ∈ calls (iteration_body d).1) :
    Event.read_step ∈ (iteration_body d).1 := by
  revert h
  unfold iteration_body
  cases hc : d.connect with
  | error e => intro h; simp [calls] at h
  | ok u =>
    simp only []
    cases hs : find_service d.services with
    | none => intro h; simp [calls, connect_events] at h
    | some svc =>
      simp only []
      have hmem : Event.read_step ∈
          (read_step (find_characteristics svc.characteristics).1).1 := by
        unfold read_step
        split
        · simp
        · split <;> simp
      cases hr : (read_step (find_characteristics svc.characteristics).1).2 with
      | next => intro _; simp [hmem]
      | undefined => intro _; simp [hmem]

/-- C6: with the value UUID absent from the characteristics of the matched
service (here the list holds the config characteristic only), the warning is
printed and the read step is entered with `temp_value` null: the member call
through it is undefined behaviour, not a caught error, and `disconnect` is
never called. -/
theorem C6_missing_value_characteristic_is_fatal :
    (find_characteristics [config_characteristic]).1 = none
    ∧ iteration_body
        (intech "AA:BB:CC:DD:EE:FF" [target_service [config_characteristic]])
      = (connect_events
          (intech "AA:BB:CC:DD:EE:FF" [target_service [config_characteristic]]) ++
          [.call .get_characteristics false, .out "Could not find characteristics.",
           .sleep 2, .read_step],
         .undefined)
    ∧ Call.disconnect ∉ calls (iteration_body
        (intech "AA:BB:CC:DD:EE:FF" [target_service [config_characteristic]])).1
    ∧ (step (config_with none) (state_at (.found
        (intech "AA:BB:CC:DD:EE:FF" [target_service [config_characteristic]]))
        true [])).loc = .undefined := by
  refine ⟨rfl, rfl, ?_, rfl⟩
  decide

/-- C10: with a matching service whose characteristics list is empty, the
iteration reaches the read step and does not call `disconnect`, so the
equivalence of C10 fails from right to left; on the service-not-found path
the calls are as C10 says. -/
theorem C10_read_step_reached_without_disconnect :
    Event.read_step ∈
      (iteration_body (intech "AA:BB:CC:DD:EE:FF" [target_service []])).1
    ∧ Call.disconnect ∉
      calls (iteration_body (intech "AA:BB:CC:DD:EE:FF" [target_service []])).1
    ∧ (iteration_body (intech "AA:BB:CC:DD:EE:FF" [target_service []])).2 = .undefined
    ∧ (calls (iteration_body (intech "AA:BB:CC:DD:EE:FF" [generic_access_service])).1).filter
        (fun c => !c.is_getter) = [.connect, .get_services] := by
  refine ⟨?_, ?_, rfl, rfl⟩
  · decide
  · decide

end Hellotinyb
